import Mathlib

/-!
Verification of the two command-line tools of this repository:

* `src/tools/list-audio-devices.c` — lists PortAudio output devices
  with their index, name, host-API name and a default-device marker;
* `src/tools/sem_unlink.c` — removes a named POSIX semaphore.

Both programs are shallowly embedded: the external collaborators (the
PortAudio subsystem, the OS semaphore namespace) are modelled as
environments of pure functions, and each `main` becomes a pure function
from such an environment to a record of observable effects (stdout
lines, stderr lines, exit code, teardown count, whether the removal
call was attempted).  Each `printf`/`fprintf` call ending in `\n`
becomes one string in the corresponding line list, without the final
newline character.
-/

/-! ## Embedding of `list-audio-devices.c` -/

/-- A `PaDeviceInfo` record as used by the program: device name,
`maxOutputChannels` and the owning host-API identifier. -/
structure PaDeviceInfo where
  name : String
  maxOutputChannels : Int
  hostApi : Int
deriving DecidableEq

/-- A `PaHostApiInfo` record as used by the program: only its name. -/
structure PaHostApiInfo where
  name : String
deriving DecidableEq

/-- The PortAudio subsystem as seen by `list-audio-devices.c`:
the result of `Pa_Initialize`, the error-text table `Pa_GetErrorText`,
the device count `Pa_GetDeviceCount` (negative values are error codes),
the default output device index `Pa_GetDefaultOutputDevice`, and the
per-index lookups `Pa_GetDeviceInfo` and `Pa_GetHostApiInfo` (returning
`none` for a NULL pointer). -/
structure PaEnv where
  initResult : Int
  getErrorText : Int → String
  getDeviceCount : Int
  getDefaultOutputDevice : Int
  getDeviceInfo : Int → Option PaDeviceInfo
  getHostApiInfo : Int → Option PaHostApiInfo

/-- Observable behaviour of one run of `list-audio-devices`:
stdout lines, stderr lines, how many times `Pa_Terminate` ran, whether
`Pa_GetDeviceCount` was called, and the value returned from `main`. -/
structure ListResult where
  stdoutLines : List String
  stderrLines : List String
  terminateCount : Nat
  enumerated : Bool
  exitCode : Nat
deriving DecidableEq

/-- Minimum-width right-justified field: the semantics of `%3d`-style
padding in C `printf` (pads with spaces on the left, never truncates). -/
def padLeft (w : Nat) (s : String) : String :=
  String.mk (List.replicate (w - s.length) ' ') ++ s

/-- Minimum-width left-justified field: the semantics of `%-40s` in C
`printf` (pads with spaces on the right, never truncates). -/
def padRight (w : Nat) (s : String) : String :=
  s ++ String.mk (List.replicate (w - s.length) ' ')

/-- The `api_name` local of the loop body: the host-API record's name,
or `"?"` when `Pa_GetHostApiInfo` returned NULL. -/
def hostApiName (env : PaEnv) (info : PaDeviceInfo) : String :=
  match env.getHostApiInfo info.hostApi with
  | some api => api.name
  | none => "?"

/-- The `marker` local of the loop body: `" *"` exactly when the index
equals the default output device index, otherwise the empty string. -/
def markerFor (env : PaEnv) (i : Nat) : String :=
  if (Int.ofNat i) = env.getDefaultOutputDevice then " *" else ""

/-- The line printed for one device by
`printf("%3d  %-40s  [%s]%s\n", i, info.name, api_name, marker)`,
without the trailing newline. -/
def deviceLine (env : PaEnv) (i : Nat) (info : PaDeviceInfo) : String :=
  padLeft 3 (toString i) ++ "  " ++ padRight 40 info.name ++ "  [" ++
    hostApiName env info ++ "]" ++ markerFor env i

/-- One iteration of the loop of `main`: `none` when the iteration hits
`continue` (NULL device info, or `maxOutputChannels < 1`), otherwise
the line it prints. -/
def deviceLineOpt (env : PaEnv) (i : Nat) : Option String :=
  match env.getDeviceInfo (Int.ofNat i) with
  | none => none
  | some info =>
      if info.maxOutputChannels < 1 then none
      else some (deviceLine env i info)

/-- The whole of `main` of `list-audio-devices.c`. -/
def listAudioDevicesMain (env : PaEnv) : ListResult :=
  if env.initResult ≠ 0 then
    { stdoutLines := []
      stderrLines := ["PortAudio init failed: " ++ env.getErrorText env.initResult]
      terminateCount := 0
      enumerated := false
      exitCode := 1 }
  else if env.getDeviceCount < 0 then
    { stdoutLines := []
      stderrLines := ["PortAudio error: " ++ env.getErrorText env.getDeviceCount]
      terminateCount := 1
      enumerated := true
      exitCode := 1 }
  else
    { stdoutLines := (List.range env.getDeviceCount.toNat).filterMap (deviceLineOpt env)
      stderrLines := []
      terminateCount := 1
      enumerated := true
      exitCode := 0 }

/-! ## Embedding of `sem_unlink.c` -/

/-- The OS semaphore facility as seen by `sem_unlink.c`: the return
value of `sem_unlink(name)` (`0` on success) and the `strerror(errno)`
text `perror` would print after a failed call on `name`. -/
structure SemEnv where
  semUnlinkRet : String → Int
  errnoText : String → String

/-- Observable behaviour of one run of `sem_unlink`: stdout lines,
stderr lines, whether the `sem_unlink` call was attempted, and the
value returned from `main`. -/
structure SemResult where
  stdoutLines : List String
  stderrLines : List String
  unlinkAttempted : Bool
  exitCode : Nat
deriving DecidableEq

/-- The whole of `main` of `sem_unlink.c`.  `progName` is `argv[0]`
and `args` the remaining arguments, so `argc = args.length + 1`. -/
def semUnlinkMain (env : SemEnv) (progName : String) (args : List String) : SemResult :=
  match args with
  | [name] =>
      if env.semUnlinkRet name ≠ 0 then
        { stdoutLines := []
          stderrLines := ["sem_unlink: " ++ env.errnoText name]
          unlinkAttempted := true
          exitCode := 1 }
      else
        { stdoutLines := ["Unlinked semaphore " ++ name]
          stderrLines := []
          unlinkAttempted := true
          exitCode := 0 }
  | _ =>
      { stdoutLines := []
        stderrLines := ["Usage: " ++ progName ++ " /name"]
        unlinkAttempted := false
        exitCode := 1 }

/-! ## Auxiliary notions used by the claims -/

/-- The last two characters of a string, in order. -/
def lastTwo (s : String) : List Char :=
  (s.data.reverse.take 2).reverse

/-- A string ends with a space followed by an asterisk. -/
def endsWithSpaceStar (s : String) : Prop :=
  lastTwo s = [' ', '*']

instance (s : String) : Decidable (endsWithSpaceStar s) := by
  unfold endsWithSpaceStar; infer_instance

/-- Whether `pat` occurs as a contiguous run at the head of `l`. -/
def matchesAt : List Char → List Char → Bool
  | [], _ => true
  | _ :: _, [] => false
  | a :: asTail, b :: bs => a == b && matchesAt asTail bs

/-- Whether `pat` occurs as a contiguous run anywhere in `l`. -/
def subSearch (pat : List Char) : List Char → Bool
  | [] => matchesAt pat []
  | c :: rest => matchesAt pat (c :: rest) || subSearch pat rest

/-- Whether the string `pat` occurs as a substring of `s`. -/
def strContains (s pat : String) : Bool :=
  subSearch pat.data s.data

/-! ## Refinement comparison definition for the line format claim

The spec words the name field as "left-aligned, padded/truncated to
exactly 40 characters".  The following two definitions follow those
words (truncating names longer than 40 characters), so that they can
be compared with `deviceLine`, which follows the source's `%-40s`
(padding only, never truncating). -/

/-- Modelled from the spec words of the line-format claim: the device
name cut to at most 40 characters and then padded to exactly 40. -/
def claimedNameField (s : String) : String :=
  padRight 40 (String.mk (s.data.take 40))

/-- Modelled from the spec words of the line-format claim: the device
line with the name field truncated to exactly 40 characters. -/
def claimedDeviceLine (env : PaEnv) (i : Nat) (info : PaDeviceInfo) : String :=
  padLeft 3 (toString i) ++ "  " ++ claimedNameField info.name ++ "  [" ++
    hostApiName env info ++ "]" ++ markerFor env i

/-! ## Example environments used as witnesses -/

/-- An output-capable device record on host API 0. -/
def devSpeakers : PaDeviceInfo where
  name := "Speakers"
  maxOutputChannels := 2
  hostApi := 0

/-- An output-capable device record whose host-API identifier resolves
to no host-API record in `envB`. -/
def devOut : PaDeviceInfo where
  name := "Out"
  maxOutputChannels := 2
  hostApi := 7

/-- An output-capable device record whose name is 41 characters long. -/
def infoLong : PaDeviceInfo where
  name := "0123456789012345678901234567890123456789X"
  maxOutputChannels := 2
  hostApi := 0

/-- A healthy PortAudio environment: three device slots; index 0 an
output device that is also the default output, index 1 an input-only
device, index 2 a NULL record. -/
def envA : PaEnv where
  initResult := 0
  getErrorText := fun _ => "No error"
  getDeviceCount := 3
  getDefaultOutputDevice := 0
  getDeviceInfo := fun i =>
    if i = 0 then some devSpeakers
    else if i = 1 then some { name := "Mic", maxOutputChannels := 0, hostApi := 0 }
    else none
  getHostApiInfo := fun i =>
    if i = 0 then some { name := "CoreAudio" } else none

/-- An environment whose single output device has a host-API
identifier that `Pa_GetHostApiInfo` does not resolve. -/
def envB : PaEnv where
  initResult := 0
  getErrorText := fun _ => "No error"
  getDeviceCount := 1
  getDefaultOutputDevice := -1
  getDeviceInfo := fun i => if i = 0 then some devOut else none
  getHostApiInfo := fun _ => none

/-- An environment whose single device has a 41-character name. -/
def envLong : PaEnv where
  initResult := 0
  getErrorText := fun _ => "No error"
  getDeviceCount := 1
  getDefaultOutputDevice := -1
  getDeviceInfo := fun i => if i = 0 then some infoLong else none
  getHostApiInfo := fun i => if i = 0 then some { name := "X" } else none

/-- An environment in which `Pa_Initialize` fails. -/
def envInitFail : PaEnv where
  initResult := -10000
  getErrorText := fun e => if e = -10000 then "PortAudio not initialized" else "?"
  getDeviceCount := 0
  getDefaultOutputDevice := -1
  getDeviceInfo := fun _ => none
  getHostApiInfo := fun _ => none

/-- An environment in which `Pa_GetDeviceCount` reports an error. -/
def envEnumFail : PaEnv where
  initResult := 0
  getErrorText := fun e => if e = -9999 then "Host error" else "?"
  getDeviceCount := -9999
  getDefaultOutputDevice := -1
  getDeviceInfo := fun _ => none
  getHostApiInfo := fun _ => none

/-- A semaphore environment in which unlinking any name succeeds. -/
def semEnvOk : SemEnv where
  semUnlinkRet := fun _ => 0
  errnoText := fun _ => "Success"

/-- A semaphore environment in which unlinking any name fails because
the name does not exist. -/
def semEnvMissing : SemEnv where
  semUnlinkRet := fun _ => -1
  errnoText := fun _ => "No such file or directory"

/-! ## Helper lemmas about the formatted line -/

theorem lastTwo_append_spaceStar (s : String) : lastTwo (s ++ " *") = [' ', '*'] := by
  have hd : (s ++ " *").data = s.data ++ [' ', '*'] := by
    rw [String.data_append]
  simp [lastTwo, hd, List.reverse_append, List.take]

theorem lastTwo_append_bracket (s : String) : lastTwo (s ++ "]") ≠ [' ', '*'] := by
  have hd : (s ++ "]").data = s.data ++ [']'] := by
    rw [String.data_append]
  unfold lastTwo
  rw [hd, List.reverse_append]
  cases hr : s.data.reverse with
  | nil => simp
  | cons c t => simp [List.take]

theorem padLeft_length (w : Nat) (s : String) :
    (padLeft w s).length = max w s.length := by
  unfold padLeft
  rw [String.length_append]
  show (List.replicate (w - s.length) ' ').length + s.length = max w s.length
  rw [List.length_replicate]
  omega

theorem padRight_length (w : Nat) (s : String) :
    (padRight w s).length = max w s.length := by
  unfold padRight
  rw [String.length_append]
  show s.length + (List.replicate (w - s.length) ' ').length = max w s.length
  rw [List.length_replicate]
  omega

theorem padRight_take (w : Nat) (s : String) :
    (padRight w s).data.take s.length = s.data := by
  unfold padRight
  rw [String.data_append]
  show (s.data ++ List.replicate (w - s.length) ' ').take s.data.length = s.data
  apply List.take_left

theorem append_bracket_merge (A : String) :
    A ++ "  [" ++ "?" ++ "]" = A ++ "  [?]" := by
  apply String.ext
  simp only [String.data_append]
  simp [List.append_assoc]

theorem deviceLineOpt_of_info (env : PaEnv) (i : Nat) (info : PaDeviceInfo)
    (hinfo : env.getDeviceInfo (Int.ofNat i) = some info)
    (hch : 1 ≤ info.maxOutputChannels) :
    deviceLineOpt env i = some (deviceLine env i info) := by
  unfold deviceLineOpt
  rw [hinfo]
  show (if info.maxOutputChannels < 1 then none
      else some (deviceLine env i info)) = some (deviceLine env i info)
  rw [if_neg (by omega)]

theorem deviceLine_eq_bracket_marker (env : PaEnv) (i : Nat) (info : PaDeviceInfo) :
    deviceLine env i info =
      (padLeft 3 (toString i) ++ "  " ++ padRight 40 info.name ++ "  [" ++
        hostApiName env info ++ "]") ++ markerFor env i := rfl

theorem endsWithSpaceStar_deviceLine (env : PaEnv) (i : Nat) (info : PaDeviceInfo) :
    endsWithSpaceStar (deviceLine env i info) ↔
      Int.ofNat i = env.getDefaultOutputDevice := by
  rw [deviceLine_eq_bracket_marker]
  unfold markerFor
  by_cases hd : Int.ofNat i = env.getDefaultOutputDevice
  · rw [if_pos hd]
    exact iff_of_true (lastTwo_append_spaceStar _) hd
  · rw [if_neg hd, String.append_empty]
    exact iff_of_false (lastTwo_append_bracket _) hd

theorem deviceLineOpt_some_eq (env : PaEnv) (i : Nat) (line : String)
    (h : deviceLineOpt env i = some line) :
    ∃ info, env.getDeviceInfo (Int.ofNat i) = some info ∧
      ¬ info.maxOutputChannels < 1 ∧ line = deviceLine env i info := by
  unfold deviceLineOpt at h
  split at h
  · exact absurd h (by simp)
  · rename_i info hinfo
    split at h
    · exact absurd h (by simp)
    · rename_i hch
      exact ⟨info, hinfo, hch, (Option.some.inj h).symm⟩

theorem deviceLineOpt_eq_some_iff (env : PaEnv) (i : Nat) :
    (∃ line, deviceLineOpt env i = some line) ↔
      ∃ info, env.getDeviceInfo (Int.ofNat i) = some info ∧
        1 ≤ info.maxOutputChannels := by
  constructor
  · rintro ⟨line, h⟩
    obtain ⟨info, hinfo, hch, -⟩ := deviceLineOpt_some_eq env i line h
    exact ⟨info, hinfo, by omega⟩
  · rintro ⟨info, hinfo, hch⟩
    exact ⟨deviceLine env i info, deviceLineOpt_of_info env i info hinfo hch⟩

theorem listAudioDevicesMain_ok (env : PaEnv) (hinit : env.initResult = 0)
    (hcount : 0 ≤ env.getDeviceCount) :
    listAudioDevicesMain env =
      { stdoutLines :=
          (List.range env.getDeviceCount.toNat).filterMap (deviceLineOpt env)
        stderrLines := []
        terminateCount := 1
        enumerated := true
        exitCode := 0 } := by
  have hneg : ¬ env.getDeviceCount < 0 := not_lt.mpr hcount
  simp [listAudioDevicesMain, hinit, hneg]

theorem deviceLineOpt_mem_stdout (env : PaEnv) (hinit : env.initResult = 0)
    (hcount : 0 ≤ env.getDeviceCount) (i : Nat) (hi : i < env.getDeviceCount.toNat)
    (line : String) (h : deviceLineOpt env i = some line) :
    line ∈ (listAudioDevicesMain env).stdoutLines := by
  rw [listAudioDevicesMain_ok env hinit hcount]
  exact List.mem_filterMap.mpr ⟨i, List.mem_range.mpr hi, h⟩

/-! ## Claims about `list-audio-devices.c` -/

/-- C1: after successful initialization and a nonnegative device count,
for every index `i` below the count a line is printed for `i` exactly
when the device record is available and its `maxOutputChannels` is at
least 1; moreover the run produces no error: stderr is empty and the
exit status is 0. -/
theorem listDevices_output_filtering (env : PaEnv) (hinit : env.initResult = 0)
    (hcount : 0 ≤ env.getDeviceCount) (i : Nat)
    (hi : i < env.getDeviceCount.toNat) :
    ((∃ line, deviceLineOpt env i = some line ∧
        line ∈ (listAudioDevicesMain env).stdoutLines) ↔
      ∃ info, env.getDeviceInfo (Int.ofNat i) = some info ∧
        1 ≤ info.maxOutputChannels) ∧
    (listAudioDevicesMain env).stderrLines = [] ∧
    (listAudioDevicesMain env).exitCode = 0 := by
  refine ⟨?_, ?_, ?_⟩
  · constructor
    · rintro ⟨line, hsome, -⟩
      exact (deviceLineOpt_eq_some_iff env i).mp ⟨line, hsome⟩
    · intro hex
      obtain ⟨line, hsome⟩ := (deviceLineOpt_eq_some_iff env i).mpr hex
      exact ⟨line, hsome, deviceLineOpt_mem_stdout env hinit hcount i hi line hsome⟩
  · rw [listAudioDevicesMain_ok env hinit hcount]
  · rw [listAudioDevicesMain_ok env hinit hcount]

/-- C2: every line printed for index `i` is among the stdout lines and
ends with a space followed by an asterisk exactly when `i` equals the
default output device index. -/
theorem listDevices_default_marker (env : PaEnv) (hinit : env.initResult = 0)
    (hcount : 0 ≤ env.getDeviceCount) (i : Nat)
    (hi : i < env.getDeviceCount.toNat) (line : String)
    (h : deviceLineOpt env i = some line) :
    line ∈ (listAudioDevicesMain env).stdoutLines ∧
    (endsWithSpaceStar line ↔ Int.ofNat i = env.getDefaultOutputDevice) := by
  refine ⟨deviceLineOpt_mem_stdout env hinit hcount i hi line h, ?_⟩
  obtain ⟨info, -, -, hline⟩ := deviceLineOpt_some_eq env i line h
  rw [hline]
  exact endsWithSpaceStar_deviceLine env i info

/-- Witness for C1 at the concrete environment `envA` and index 0. -/
theorem listDevices_output_filtering_witness :
    ((∃ line, deviceLineOpt envA 0 = some line ∧
        line ∈ (listAudioDevicesMain envA).stdoutLines) ↔
      ∃ info, envA.getDeviceInfo (Int.ofNat 0) = some info ∧
        1 ≤ info.maxOutputChannels) ∧
    (listAudioDevicesMain envA).stderrLines = [] ∧
    (listAudioDevicesMain envA).exitCode = 0 :=
  listDevices_output_filtering envA rfl (by decide) 0 (by decide)

/-- Witness for C2 at `envA`, index 0 and its printed line. -/
theorem listDevices_default_marker_witness :
    deviceLine envA 0 devSpeakers ∈ (listAudioDevicesMain envA).stdoutLines ∧
    (endsWithSpaceStar (deviceLine envA 0 devSpeakers) ↔
      Int.ofNat 0 = envA.getDefaultOutputDevice) :=
  listDevices_default_marker envA rfl (by decide) 0 (by decide)
    (deviceLine envA 0 devSpeakers) (by decide)

/-- C3 counterexample: in `envLong`, whose single output device has a
41-character name, the program prints the untruncated line of length
51, not the 50-character line the claim's exactly-40-character name
field would give; so the claim's truncation clause is false. -/
theorem listDevices_truncation_cex :
    (listAudioDevicesMain envLong).stdoutLines = [deviceLine envLong 0 infoLong] ∧
    infoLong.name.length = 41 ∧
    (deviceLine envLong 0 infoLong).length = 51 ∧
    (claimedDeviceLine envLong 0 infoLong).length = 50 ∧
    deviceLine envLong 0 infoLong ≠ claimedDeviceLine envLong 0 infoLong := by
  refine ⟨?_, ?_, ?_, ?_, ?_⟩ <;> decide

/-- C3 (amended): every printed device line is the index right-aligned
with minimum width 3, two spaces, the device name left-aligned with
minimum width 40 (padded with spaces, never truncated, so the field
is wider for names over 40 characters), two spaces, the host-API name
in square brackets, and the optional default marker. -/
theorem listDevices_line_format (env : PaEnv) (hinit : env.initResult = 0)
    (hcount : 0 ≤ env.getDeviceCount) (i : Nat) (info : PaDeviceInfo)
    (hi : i < env.getDeviceCount.toNat)
    (hinfo : env.getDeviceInfo (Int.ofNat i) = some info)
    (hch : 1 ≤ info.maxOutputChannels) :
    deviceLineOpt env i = some (deviceLine env i info) ∧
    deviceLine env i info ∈ (listAudioDevicesMain env).stdoutLines ∧
    deviceLine env i info =
      padLeft 3 (toString i) ++ "  " ++ padRight 40 info.name ++ "  [" ++
        hostApiName env info ++ "]" ++ markerFor env i ∧
    (padLeft 3 (toString i)).length = max 3 (toString i).length ∧
    (padRight 40 info.name).length = max 40 info.name.length ∧
    (padRight 40 info.name).data.take info.name.length = info.name.data ∧
    (markerFor env i = " *" ∨ markerFor env i = "") := by
  have hsome := deviceLineOpt_of_info env i info hinfo hch
  refine ⟨hsome, deviceLineOpt_mem_stdout env hinit hcount i hi _ hsome, rfl,
    padLeft_length 3 (toString i), padRight_length 40 info.name,
    padRight_take 40 info.name, ?_⟩
  unfold markerFor
  by_cases hd : Int.ofNat i = env.getDefaultOutputDevice
  · left; rw [if_pos hd]
  · right; rw [if_neg hd]

/-- Witness for the amended C3 at `envA`, index 0. -/
theorem listDevices_line_format_witness :
    deviceLineOpt envA 0 = some (deviceLine envA 0 devSpeakers) ∧
    deviceLine envA 0 devSpeakers ∈ (listAudioDevicesMain envA).stdoutLines ∧
    deviceLine envA 0 devSpeakers =
      padLeft 3 (toString 0) ++ "  " ++ padRight 40 devSpeakers.name ++ "  [" ++
        hostApiName envA devSpeakers ++ "]" ++ markerFor envA 0 ∧
    (padLeft 3 (toString 0)).length = max 3 (toString 0).length ∧
    (padRight 40 devSpeakers.name).length = max 40 devSpeakers.name.length ∧
    (padRight 40 devSpeakers.name).data.take devSpeakers.name.length =
      devSpeakers.name.data ∧
    (markerFor envA 0 = " *" ∨ markerFor envA 0 = "") :=
  listDevices_line_format envA rfl (by decide) 0 devSpeakers (by decide)
    (by decide) (by decide)

/-- C4: when the host-API lookup for a printed device returns NULL,
that device's line renders the bracketed field exactly as `[?]` and
the line is still printed. -/
theorem listDevices_hostapi_fallback (env : PaEnv) (hinit : env.initResult = 0)
    (hcount : 0 ≤ env.getDeviceCount) (i : Nat) (info : PaDeviceInfo)
    (hi : i < env.getDeviceCount.toNat)
    (hinfo : env.getDeviceInfo (Int.ofNat i) = some info)
    (hch : 1 ≤ info.maxOutputChannels)
    (hapi : env.getHostApiInfo info.hostApi = none) :
    deviceLineOpt env i = some
      (padLeft 3 (toString i) ++ "  " ++ padRight 40 info.name ++ "  [?]" ++
        markerFor env i) ∧
    (padLeft 3 (toString i) ++ "  " ++ padRight 40 info.name ++ "  [?]" ++
        markerFor env i) ∈ (listAudioDevicesMain env).stdoutLines := by
  have hapiname : hostApiName env info = "?" := by
    unfold hostApiName
    rw [hapi]
  have hline : deviceLine env i info =
      padLeft 3 (toString i) ++ "  " ++ padRight 40 info.name ++ "  [?]" ++
        markerFor env i := by
    unfold deviceLine
    rw [hapiname,
      append_bracket_merge (padLeft 3 (toString i) ++ "  " ++ padRight 40 info.name)]
  have hsome := deviceLineOpt_of_info env i info hinfo hch
  rw [hline] at hsome
  exact ⟨hsome, deviceLineOpt_mem_stdout env hinit hcount i hi _ hsome⟩

/-- Witness for C4 at `envB`, whose single output device has an
unresolvable host-API identifier. -/
theorem listDevices_hostapi_fallback_witness :
    deviceLineOpt envB 0 = some
      (padLeft 3 (toString 0) ++ "  " ++ padRight 40 devOut.name ++ "  [?]" ++
        markerFor envB 0) ∧
    (padLeft 3 (toString 0) ++ "  " ++ padRight 40 devOut.name ++ "  [?]" ++
        markerFor envB 0) ∈ (listAudioDevicesMain envB).stdoutLines :=
  listDevices_hostapi_fallback envB rfl (by decide) 0 devOut (by decide)
    (by decide) (by decide) rfl

/-- C5: after a successful initialization, a negative device count
makes the program print the subsystem's error text for that count to
stderr, tear the subsystem down once, exit with status 1, and print
nothing to stdout. -/
theorem listDevices_enumeration_failure (env : PaEnv)
    (hinit : env.initResult = 0) (hneg : env.getDeviceCount < 0) :
    listAudioDevicesMain env =
      { stdoutLines := []
        stderrLines := ["PortAudio error: " ++ env.getErrorText env.getDeviceCount]
        terminateCount := 1
        enumerated := true
        exitCode := 1 } := by
  simp [listAudioDevicesMain, hinit, hneg]

/-- Witness for C5 at a concrete environment reporting count `-9999`. -/
theorem listDevices_enumeration_failure_witness :
    listAudioDevicesMain envEnumFail =
      { stdoutLines := []
        stderrLines := ["PortAudio error: Host error"]
        terminateCount := 1
        enumerated := true
        exitCode := 1 } := by
  have h := listDevices_enumeration_failure envEnumFail rfl (by decide)
  simpa using h

/-- C6: when initialization fails, the program prints the subsystem's
error text to stderr and exits with status 1, with no teardown, no
device-count query and no stdout output. -/
theorem listDevices_init_failure (env : PaEnv) (hinit : env.initResult ≠ 0) :
    listAudioDevicesMain env =
      { stdoutLines := []
        stderrLines := ["PortAudio init failed: " ++ env.getErrorText env.initResult]
        terminateCount := 0
        enumerated := false
        exitCode := 1 } := by
  simp [listAudioDevicesMain, hinit]

/-- Witness for C6 at a concrete environment whose initialization
fails. -/
theorem listDevices_init_failure_witness :
    listAudioDevicesMain envInitFail =
      { stdoutLines := []
        stderrLines := ["PortAudio init failed: PortAudio not initialized"]
        terminateCount := 0
        enumerated := false
        exitCode := 1 } := by
  have h := listDevices_init_failure envInitFail (by decide)
  simpa using h

/-- C7: whenever initialization succeeds the teardown runs exactly
once — on the enumeration-failure path as well as on the normal path —
and when enumeration also succeeds the exit status is 0. -/
theorem listDevices_scoped_release (env : PaEnv) (hinit : env.initResult = 0) :
    (listAudioDevicesMain env).terminateCount = 1 ∧
    (0 ≤ env.getDeviceCount → (listAudioDevicesMain env).exitCode = 0) := by
  by_cases hc : env.getDeviceCount < 0
  · constructor
    · simp [listAudioDevicesMain, hinit, hc]
    · intro h
      omega
  · constructor
    · simp [listAudioDevicesMain, hinit, hc]
    · intro h
      simp [listAudioDevicesMain, hinit, hc]

/-- Witness for C7 at the concrete environment `envA`. -/
theorem listDevices_scoped_release_witness :
    (listAudioDevicesMain envA).terminateCount = 1 ∧
    (0 ≤ envA.getDeviceCount → (listAudioDevicesMain envA).exitCode = 0) :=
  listDevices_scoped_release envA rfl

/-! ## Claims about `sem_unlink.c` -/

/-- C8: with an argument count (excluding the program name) other than
one, the program prints `Usage: <program> /name` to stderr, exits with
status 1 and never attempts the removal call. -/
theorem semUnlink_usage_error (env : SemEnv) (progName : String)
    (args : List String) (h : args.length ≠ 1) :
    semUnlinkMain env progName args =
      { stdoutLines := []
        stderrLines := ["Usage: " ++ progName ++ " /name"]
        unlinkAttempted := false
        exitCode := 1 } := by
  match args with
  | [] => rfl
  | [a] => exact absurd rfl h
  | a :: b :: rest => rfl

/-- Witness for C8 at a concrete two-argument invocation. -/
theorem semUnlink_usage_error_witness :
    semUnlinkMain semEnvOk "sem_unlink" ["/a", "/b"] =
      { stdoutLines := []
        stderrLines := ["Usage: sem_unlink /name"]
        unlinkAttempted := false
        exitCode := 1 } := by
  have h := semUnlink_usage_error semEnvOk "sem_unlink" ["/a", "/b"] (by decide)
  simpa using h

/-- C9: with exactly one argument naming a semaphore whose removal
succeeds, the program prints exactly `Unlinked semaphore <name>` (then
a newline) to stdout and exits with status 0. -/
theorem semUnlink_success (env : SemEnv) (progName name : String)
    (h : env.semUnlinkRet name = 0) :
    semUnlinkMain env progName [name] =
      { stdoutLines := ["Unlinked semaphore " ++ name]
        stderrLines := []
        unlinkAttempted := true
        exitCode := 0 } := by
  simp [semUnlinkMain, h]

/-- Witness for C9: unlinking `/test` in an environment where the call
succeeds prints `Unlinked semaphore /test`. -/
theorem semUnlink_success_witness :
    semUnlinkMain semEnvOk "sem_unlink" ["/test"] =
      { stdoutLines := ["Unlinked semaphore /test"]
        stderrLines := []
        unlinkAttempted := true
        exitCode := 0 } := by
  have h := semUnlink_success semEnvOk "sem_unlink" "/test" rfl
  simpa using h

/-- C10 counterexample: when unlinking `/test` fails with
`No such file or directory`, the program exits with status 1 and the
single stderr line is `sem_unlink: No such file or directory`, which
does not contain the semaphore name `/test` anywhere — refuting the
claim that stderr contains a reference to the semaphore name. -/
theorem semUnlink_stderr_cex :
    semUnlinkMain semEnvMissing "sem_unlink" ["/test"] =
      { stdoutLines := []
        stderrLines := ["sem_unlink: No such file or directory"]
        unlinkAttempted := true
        exitCode := 1 } ∧
    strContains "sem_unlink: No such file or directory" "/test" = false := by
  constructor
  · decide
  · decide

/-- C10 (amended): with exactly one argument, when the removal call
fails the program exits with status 1 and prints to stderr a single
message consisting of the operation name `sem_unlink`, a colon and a
space, and the underlying system error text; the semaphore name itself
does not appear unless it happens to occur in that text. -/
theorem semUnlink_failure_message (env : SemEnv) (progName name : String)
    (h : env.semUnlinkRet name ≠ 0) :
    semUnlinkMain env progName [name] =
      { stdoutLines := []
        stderrLines := ["sem_unlink: " ++ env.errnoText name]
        unlinkAttempted := true
        exitCode := 1 } := by
  simp [semUnlinkMain, h]

/-- Witness for the amended C10 at a concrete failing environment. -/
theorem semUnlink_failure_message_witness :
    semUnlinkMain semEnvMissing "sem_unlink" ["/gone"] =
      { stdoutLines := []
        stderrLines := ["sem_unlink: No such file or directory"]
        unlinkAttempted := true
        exitCode := 1 } := by
  have h := semUnlink_failure_message semEnvMissing "sem_unlink" "/gone" (by decide)
  simpa using h
